import Mathlib

/-
  Verification of the reviewer-management subsystem of the python-gerrit-api
  client library (gerrit/changes/reviewers.py) and of GerritAccount.set_name
  (gerrit/accounts/account.py).

  The embedding is trace-based: the HTTP transport capability is an abstract
  state machine (a step function from a server state and an HTTP request to a
  response and a successor state), and every library operation is a pure
  function from its arguments, a transport and a server state to a result
  (success value or propagated Python exception), the final server state, and
  the ordered list of HTTP requests the call issued.
-/

/-- Decoded JSON values as Python sees them after response decoding:
None, strings, integers, lists, and dicts with string keys. -/
inductive Json where
  | null : Json
  | str (s : String) : Json
  | num (n : Int) : Json
  | arr (xs : List Json) : Json
  | obj (fields : List (String × Json)) : Json

mutual

/-- Python str() of a decoded JSON value, as produced by f-string
interpolation: str(None) is "None", strings interpolate verbatim,
containers fall back to their repr. -/
def pyStr : Json → String
  | .null => "None"
  | .str s => s
  | .num n => toString n
  | .arr xs => "[" ++ pyReprList xs ++ "]"
  | .obj fs => "\x7b" ++ pyReprFields fs ++ "\x7d"

/-- Python repr() of a decoded JSON value (strings are quoted). -/
def pyRepr : Json → String
  | .null => "None"
  | .str s => "\x27" ++ s ++ "\x27"
  | .num n => toString n
  | .arr xs => "[" ++ pyReprList xs ++ "]"
  | .obj fs => "\x7b" ++ pyReprFields fs ++ "\x7d"

/-- Comma-separated reprs of the elements of a Python list. -/
def pyReprList : List Json → String
  | [] => ""
  | [x] => pyRepr x
  | x :: y :: xs => pyRepr x ++ ", " ++ pyReprList (y :: xs)

/-- Comma-separated key: value reprs of the entries of a Python dict. -/
def pyReprFields : List (String × Json) → String
  | [] => ""
  | [(k, v)] => pyRepr (.str k) ++ ": " ++ pyRepr v
  | (k, v) :: e :: fs => pyRepr (.str k) ++ ": " ++ pyRepr v ++ ", " ++ pyReprFields (e :: fs)

end

/-- Python exceptions that the modelled code can raise or propagate. -/
inductive PyExc where
  | httpError (status : Nat) : PyExc
  | reviewerNotFoundError (message : String) : PyExc
  | reviewerAlreadyExistsError (message : String) : PyExc
  | gerritAPIException (causeStatus : Nat) : PyExc
  | indexError : PyExc
  | keyError : PyExc
  | typeError : PyExc
  | attributeError : PyExc
  deriving DecidableEq

/-- Lookup of a key among the entries of a modelled dict
(keys are assumed distinct, as for a decoded JSON object). -/
def lookupField : List (String × Json) → String → Option Json
  | [], _ => none
  | (k, v) :: fs, key => if k = key then some v else lookupField fs key

/-- Python x.get(key): on a dict, the value bound to key, or None when
absent; on any non-dict value, AttributeError (no .get method). -/
def dictGet : Json → String → Except PyExc Json
  | .obj fs, key => .ok ((lookupField fs key).getD .null)
  | _, _ => .error .attributeError

/-- Python x[0] on a decoded JSON value: head of a non-empty list,
IndexError on an empty list or empty string, the first character of a
non-empty string, KeyError on a dict (JSON dict keys are strings, never
the int 0), TypeError otherwise. -/
def index0 : Json → Except PyExc Json
  | .arr [] => .error .indexError
  | .arr (x :: _) => .ok x
  | .str s => if s.isEmpty then .error .indexError else .ok (.str (String.singleton s.front))
  | .obj _ => .error .keyError
  | _ => .error .typeError

/-- HTTP request methods used by the modelled subsystem. -/
inductive Method where
  | GET : Method
  | POST : Method
  | PUT : Method
  | DELETE : Method
  deriving DecidableEq

/-- One HTTP request: method, path, and optional JSON payload. The default
headers attached by the client carry no information relevant to the spec
and are not modelled. -/
structure Request where
  method : Method
  path : String
  body : Option Json

/-- A server response: a decoded JSON body on 2xx, or the status code of a
non-2xx response (on which the transport raises). -/
inductive HResp where
  | ok (body : Json) : HResp
  | err (status : Nat) : HResp

/-- Modelled from the spec: the HTTP transport capability (gerrit.utils,
not among the provided sources). The spec states it performs
GET/POST/PUT/DELETE against a base URL, raises on non-2xx status, and
exposes the decoded JSON body on success. It is modelled as an abstract
state machine over a server-state type so that mutating calls may change
later responses; base-URL prefixing is omitted, paths are relative. -/
structure GerritClient (σ : Type) where
  step : σ → Request → HResp × σ

/-- Modelled from the spec: transport GET. Issues one GET request; returns
the decoded body on success, raises HTTPError with the status on non-2xx. -/
def GerritClient.get {σ : Type} (g : GerritClient σ) (s : σ) (path : String) :
    Except PyExc Json × σ × List Request :=
  let r : Request := ⟨.GET, path, none⟩
  match g.step s r with
  | (.ok b, s2) => (.ok b, s2, [r])
  | (.err c, s2) => (.error (.httpError c), s2, [r])

/-- Modelled from the spec: transport POST with a JSON payload. -/
def GerritClient.post {σ : Type} (g : GerritClient σ) (s : σ) (path : String) (json : Json) :
    Except PyExc Json × σ × List Request :=
  let r : Request := ⟨.POST, path, some json⟩
  match g.step s r with
  | (.ok b, s2) => (.ok b, s2, [r])
  | (.err c, s2) => (.error (.httpError c), s2, [r])

/-- Modelled from the spec: transport PUT with a JSON payload. -/
def GerritClient.put {σ : Type} (g : GerritClient σ) (s : σ) (path : String) (json : Json) :
    Except PyExc Json × σ × List Request :=
  let r : Request := ⟨.PUT, path, some json⟩
  match g.step s r with
  | (.ok b, s2) => (.ok b, s2, [r])
  | (.err c, s2) => (.error (.httpError c), s2, [r])

/-- Modelled from the spec: transport DELETE. Raises on non-2xx; the
callers in the modelled code ignore its successful response body. -/
def GerritClient.delete {σ : Type} (g : GerritClient σ) (s : σ) (path : String) :
    Except PyExc Unit × σ × List Request :=
  let r : Request := ⟨.DELETE, path, none⟩
  match g.step s r with
  | (.ok _, s2) => (.ok (), s2, [r])
  | (.err c, s2) => (.error (.httpError c), s2, [r])

/-- A reviewer entity (GerritChangeReviewer): one reviewer attached to one
change, with the endpoint string computed in the constructor. -/
structure GerritChangeReviewer where
  account : Json
  change : String
  endpoint : String

/-- GerritChangeReviewer.__init__: stores account and change and builds
the endpoint f-string "/changes/{change}/reviewers/{account}". -/
def GerritChangeReviewer.init (account : Json) (change : String) : GerritChangeReviewer :=
  ⟨account, change, "/changes/" ++ change ++ "/reviewers/" ++ pyStr account⟩

/-- GerritChangeReviewer.delete: with no input, one DELETE to the
endpoint; with an input payload, one POST to endpoint/delete carrying it.
The method never assigns to self, so the entity is returned unchanged. -/
def GerritChangeReviewer.delete {σ : Type} (r : GerritChangeReviewer) (input_ : Option Json)
    (g : GerritClient σ) (s : σ) :
    Except PyExc Unit × σ × List Request × GerritChangeReviewer :=
  match input_ with
  | none =>
    match g.delete s r.endpoint with
    | (res, s2, t) => (res, s2, t, r)
  | some j =>
    match g.post s (r.endpoint ++ "/delete") j with
    | (res, s2, t) => (res.map fun _ => (), s2, t, r)

/-- GerritChangeReviewer.list_votes: one GET to endpoint/votes/. -/
def GerritChangeReviewer.list_votes {σ : Type} (r : GerritChangeReviewer)
    (g : GerritClient σ) (s : σ) :
    Except PyExc Json × σ × List Request × GerritChangeReviewer :=
  match g.get s (r.endpoint ++ "/votes/") with
  | (res, s2, t) => (res, s2, t, r)

/-- GerritChangeReviewer.delete_vote: with no input, one DELETE to
endpoint/votes/{label}; with an input payload, one POST to
endpoint/votes/{label}/delete carrying it. -/
def GerritChangeReviewer.delete_vote {σ : Type} (r : GerritChangeReviewer) (label : String)
    (input_ : Option Json) (g : GerritClient σ) (s : σ) :
    Except PyExc Unit × σ × List Request × GerritChangeReviewer :=
  match input_ with
  | none =>
    match g.delete s (r.endpoint ++ "/votes/" ++ label) with
    | (res, s2, t) => (res, s2, t, r)
  | some j =>
    match g.post s (r.endpoint ++ "/votes/" ++ label ++ "/delete") j with
    | (res, s2, t) => (res.map fun _ => (), s2, t, r)

/-- The reviewer collection (GerritChangeReviewers) for one change. -/
structure GerritChangeReviewers where
  change : String

/-- The collection endpoint f-string "/changes/{change}/reviewers". -/
def GerritChangeReviewers.endpoint (c : GerritChangeReviewers) : String :=
  "/changes/" ++ c.change ++ "/reviewers"

/-- GerritChangeReviewers.list: one GET to endpoint/ returning the raw
decoded body. -/
def GerritChangeReviewers.list {σ : Type} (c : GerritChangeReviewers)
    (g : GerritClient σ) (s : σ) : Except PyExc Json × σ × List Request :=
  g.get s (c.endpoint ++ "/")

/-- GerritChangeReviewers.get: one GET to endpoint/{account}; on success
takes result[0].get("_account_id") and constructs a reviewer entity; an
HTTPError with status 404 or 400 becomes ReviewerNotFoundError naming the
requested account, any other HTTPError becomes GerritAPIException carrying
the original status as cause; non-HTTPError exceptions (IndexError from an
empty body, and the like) propagate uncaught. -/
def GerritChangeReviewers.get {σ : Type} (c : GerritChangeReviewers) (account : Json)
    (g : GerritClient σ) (s : σ) :
    Except PyExc GerritChangeReviewer × σ × List Request :=
  match GerritClient.get g s (c.endpoint ++ "/" ++ pyStr account) with
  | (.ok result, s2, t) =>
    (match index0 result with
     | .error e => .error e
     | .ok first =>
       match dictGet first "_account_id" with
       | .error e => .error e
       | .ok accountId => .ok (GerritChangeReviewer.init accountId c.change),
     s2, t)
  | (.error (.httpError code), s2, t) =>
    (if code = 404 ∨ code = 400 then
       .error (.reviewerNotFoundError ("Reviewer " ++ pyStr account ++ " does not exist"))
     else
       .error (.gerritAPIException code),
     s2, t)
  | (.error e, s2, t) => (.error e, s2, t)

/-- GerritChangeReviewers.add: reads input_.get("reviewer"), tries
get(reviewer); if that succeeds, raises ReviewerAlreadyExistsError; if it
raises ReviewerNotFoundError, POSTs input_ to the collection endpoint and
returns get(reviewer) run again; any other exception from the first get or
from the POST propagates. -/
def GerritChangeReviewers.add {σ : Type} (c : GerritChangeReviewers) (input_ : Json)
    (g : GerritClient σ) (s : σ) :
    Except PyExc GerritChangeReviewer × σ × List Request :=
  match dictGet input_ "reviewer" with
  | .error e => (.error e, s, [])
  | .ok reviewer =>
    match c.get reviewer g s with
    | (.ok _, s1, t1) =>
      (.error (.reviewerAlreadyExistsError ("Reviewer " ++ pyStr reviewer ++ " already exists")),
       s1, t1)
    | (.error (.reviewerNotFoundError _), s1, t1) =>
      (match GerritClient.post g s1 c.endpoint input_ with
       | (.error e, s2, t2) => (.error e, s2, t1 ++ t2)
       | (.ok _, s2, t2) =>
         match c.get reviewer g s2 with
         | (r3, s3, t3) => (r3, s3, t1 ++ t2 ++ t3))
    | (.error e, s1, t1) => (.error e, s1, t1)

/-- The account model (GerritAccount): the attributes the BaseModel
declares for it. The _account_id attribute is modelled as accountId. -/
structure GerritAccount where
  username : Json
  registered_on : Json
  accountId : Json
  name : Json
  email : Json

/-- Modelled from the spec: the check decorator (gerrit.utils.common, not
among the provided sources). The spec states this layer performs no
input-shape validation beyond the reviewer field on add, so check is
modelled as a pass-through. -/
def check {α β : Type} (f : α → β) : α → β := f

/-- GerritAccount.set_name: one PUT of input_ to /accounts/{username}/name;
on success the decoded response becomes the new local name attribute and is
returned; on failure the HTTPError propagates and the model is unchanged.
The requester and decode_response are the spec-modelled transport; the
get_endpoint_url base-URL prefixing is omitted, paths are relative. -/
def GerritAccount.set_name {σ : Type} (a : GerritAccount) (input_ : Json)
    (g : GerritClient σ) (s : σ) :
    Except PyExc Json × σ × List Request × GerritAccount :=
  check (fun input : Json =>
    match GerritClient.put g s ("/accounts/" ++ pyStr a.username ++ "/name") input with
    | (.error e, s2, t) => (.error e, s2, t, a)
    | (.ok result, s2, t) => (.ok result, s2, t, { a with name := result })) input_

/-- One reviewer-collection operation that can return a reviewer entity:
either get or add, so that a single statement ranges over both. -/
inductive ReviewerOp where
  | getOp (account : Json) : ReviewerOp
  | addOp (input_ : Json) : ReviewerOp

/-- Runs a reviewer-collection operation: getOp runs get, addOp runs add. -/
def GerritChangeReviewers.runOp {σ : Type} (c : GerritChangeReviewers) (op : ReviewerOp)
    (g : GerritClient σ) (s : σ) :
    Except PyExc GerritChangeReviewer × σ × List Request :=
  match op with
  | .getOp a => c.get a g s
  | .addOp i => c.add i g s

/-- A stateless server answering every request alike, for concrete runs. -/
def constServer (resp : HResp) : GerritClient Unit :=
  ⟨fun s _ => (resp, s)⟩

/-- A server for the add flow: the first request is answered 404, every
later request is answered with a one-record reviewer list whose record
has _account_id 42. The state counts the requests served. -/
def addFlowServer : GerritClient Nat :=
  ⟨fun s _ =>
    if s = 0 then (.err 404, 1)
    else (.ok (.arr [.obj [("_account_id", .num 42)]]), s + 1)⟩

/-- The transport GET issues exactly the one GET request, whatever the
server answers. -/
theorem clientGet_trace {σ : Type} (g : GerritClient σ) (s : σ) (path : String) :
    (GerritClient.get g s path).2.2 = [⟨Method.GET, path, none⟩] := by
  simp only [GerritClient.get]
  split <;> rfl

/-- Transport GET on a 2xx answer returns the decoded body. -/
theorem clientGet_ok {σ : Type} {g : GerritClient σ} {s s2 : σ} {path : String} {b : Json}
    (h : g.step s ⟨Method.GET, path, none⟩ = (.ok b, s2)) :
    GerritClient.get g s path = (.ok b, s2, [⟨Method.GET, path, none⟩]) := by
  simp only [GerritClient.get, h]

/-- Transport GET on a non-2xx answer raises HTTPError with the status. -/
theorem clientGet_err {σ : Type} {g : GerritClient σ} {s s2 : σ} {path : String} {code : Nat}
    (h : g.step s ⟨Method.GET, path, none⟩ = (.err code, s2)) :
    GerritClient.get g s path = (.error (.httpError code), s2, [⟨Method.GET, path, none⟩]) := by
  simp only [GerritClient.get, h]

/-- Transport POST on a 2xx answer returns the decoded body. -/
theorem clientPost_ok {σ : Type} {g : GerritClient σ} {s s2 : σ} {path : String} {j b : Json}
    (h : g.step s ⟨Method.POST, path, some j⟩ = (.ok b, s2)) :
    GerritClient.post g s path j = (.ok b, s2, [⟨Method.POST, path, some j⟩]) := by
  simp only [GerritClient.post, h]

/-- Transport POST on a non-2xx answer raises HTTPError with the status. -/
theorem clientPost_err {σ : Type} {g : GerritClient σ} {s s2 : σ} {path : String} {j : Json}
    {code : Nat} (h : g.step s ⟨Method.POST, path, some j⟩ = (.err code, s2)) :
    GerritClient.post g s path j = (.error (.httpError code), s2, [⟨Method.POST, path, some j⟩]) := by
  simp only [GerritClient.post, h]

/-- The transport POST issues exactly the one POST request. -/
theorem clientPost_trace {σ : Type} (g : GerritClient σ) (s : σ) (path : String) (j : Json) :
    (GerritClient.post g s path j).2.2 = [⟨Method.POST, path, some j⟩] := by
  simp only [GerritClient.post]
  split <;> rfl

/-- Transport PUT on a 2xx answer returns the decoded body. -/
theorem clientPut_ok {σ : Type} {g : GerritClient σ} {s s2 : σ} {path : String} {j b : Json}
    (h : g.step s ⟨Method.PUT, path, some j⟩ = (.ok b, s2)) :
    GerritClient.put g s path j = (.ok b, s2, [⟨Method.PUT, path, some j⟩]) := by
  simp only [GerritClient.put, h]

/-- The collection get issues exactly one GET request, to the
account-scoped lookup path. -/
theorem revGet_trace {σ : Type} (c : GerritChangeReviewers) (a : Json)
    (g : GerritClient σ) (s : σ) :
    (c.get a g s).2.2 = [⟨Method.GET, c.endpoint ++ "/" ++ pyStr a, none⟩] := by
  have hcl := clientGet_trace g s (c.endpoint ++ "/" ++ pyStr a)
  simp only [GerritChangeReviewers.get]
  split <;> rename_i heq <;> rw [heq] at hcl <;> simpa using hcl

/-- The transport DELETE issues exactly the one DELETE request. -/
theorem clientDelete_trace {σ : Type} (g : GerritClient σ) (s : σ) (path : String) :
    (GerritClient.delete g s path).2.2 = [⟨Method.DELETE, path, none⟩] := by
  simp only [GerritClient.delete]
  split <;> rfl

/-- Collection get when the server answers the lookup with a non-2xx
status: the classified error, the post-lookup state, one GET issued. -/
theorem revGet_err {σ : Type} {c : GerritChangeReviewers} {a : Json} {g : GerritClient σ}
    {s s2 : σ} {code : Nat}
    (h : g.step s ⟨Method.GET, c.endpoint ++ "/" ++ pyStr a, none⟩ = (.err code, s2)) :
    c.get a g s =
      ((if code = 404 ∨ code = 400 then
          .error (.reviewerNotFoundError ("Reviewer " ++ pyStr a ++ " does not exist"))
        else
          .error (.gerritAPIException code)),
       s2, [⟨Method.GET, c.endpoint ++ "/" ++ pyStr a, none⟩]) := by
  simp only [GerritChangeReviewers.get, clientGet_err h]

/-- Collection get when the server answers the lookup with a 2xx body:
the entity construction pipeline applied to the body, one GET issued. -/
theorem revGet_ok {σ : Type} {c : GerritChangeReviewers} {a : Json} {g : GerritClient σ}
    {s s2 : σ} {body : Json}
    (h : g.step s ⟨Method.GET, c.endpoint ++ "/" ++ pyStr a, none⟩ = (.ok body, s2)) :
    c.get a g s =
      ((match index0 body with
        | .error e => .error e
        | .ok first =>
          match dictGet first "_account_id" with
          | .error e => .error e
          | .ok accountId => .ok (GerritChangeReviewer.init accountId c.change)),
       s2, [⟨Method.GET, c.endpoint ++ "/" ++ pyStr a, none⟩]) := by
  simp only [GerritChangeReviewers.get, clientGet_ok h]

/-- Inversion: a successful collection get came from a 2xx lookup whose
first record supplied the account id of the constructed entity. -/
theorem revGet_ok_inv {σ : Type} {c : GerritChangeReviewers} {a : Json} {g : GerritClient σ}
    {s sf : σ} {r : GerritChangeReviewer} {t : List Request}
    (h : c.get a g s = (.ok r, sf, t)) :
    ∃ body first accountId,
      g.step s ⟨Method.GET, c.endpoint ++ "/" ++ pyStr a, none⟩ = (.ok body, sf) ∧
      index0 body = .ok first ∧
      dictGet first "_account_id" = .ok accountId ∧
      r = GerritChangeReviewer.init accountId c.change ∧
      t = [⟨Method.GET, c.endpoint ++ "/" ++ pyStr a, none⟩] := by
  rcases hstep : g.step s ⟨Method.GET, c.endpoint ++ "/" ++ pyStr a, none⟩ with ⟨resp, s2⟩
  cases resp with
  | err code =>
    rw [revGet_err hstep] at h
    by_cases hc : code = 404 ∨ code = 400 <;> simp [hc] at h
  | ok body =>
    rw [revGet_ok hstep] at h
    cases hidx : index0 body with
    | error e => simp [hidx] at h
    | ok first =>
      cases hag : dictGet first "_account_id" with
      | error e => simp [hidx, hag] at h
      | ok accountId =>
        simp only [hidx, hag, Prod.mk.injEq, Except.ok.injEq] at h
        obtain ⟨h1, h2, h3⟩ := h
        exact ⟨body, first, accountId, by rw [← h2], hidx, hag, h1.symm, h3.symm⟩

/-- Inversion: a successful add got its returned entity from the final
re-resolving get, and that get's lookup request closes the add trace. -/
theorem revAdd_ok_inv {σ : Type} {c : GerritChangeReviewers} {input_ : Json}
    {g : GerritClient σ} {s sf : σ} {r : GerritChangeReviewer} {t : List Request}
    (h : c.add input_ g s = (.ok r, sf, t)) :
    ∃ X s2 t3,
      dictGet input_ "reviewer" = .ok X ∧
      c.get X g s2 = (.ok r, sf, t3) ∧
      t.getLast? = t3.getLast? := by
  cases hdg : dictGet input_ "reviewer" with
  | error e => simp [GerritChangeReviewers.add, hdg] at h
  | ok X =>
    simp only [GerritChangeReviewers.add, hdg] at h
    rcases hg1 : c.get X g s with ⟨r1, s1, t1⟩
    rw [hg1] at h
    cases r1 with
    | ok r0 => simp at h
    | error e =>
      cases e with
      | reviewerNotFoundError m =>
        dsimp only at h
        rcases hp : GerritClient.post g s1 c.endpoint input_ with ⟨r2, s2, t2⟩
        rw [hp] at h
        cases r2 with
        | error e2 => simp at h
        | ok b =>
          dsimp only at h
          rcases hg3 : c.get X g s2 with ⟨r3, s3, t3⟩
          rw [hg3] at h
          simp only [Prod.mk.injEq] at h
          obtain ⟨h1, h2, h3⟩ := h
          have ht3 : t3 = [⟨Method.GET, c.endpoint ++ "/" ++ pyStr X, none⟩] := by
            have hrt := revGet_trace c X g s2
            rw [hg3] at hrt
            simpa using hrt
          refine ⟨X, s2, t3, rfl, by rw [hg3, h1, h2], ?_⟩
          rw [← h3, ht3]
          simp
      | httpError code => simp at h
      | reviewerAlreadyExistsError m => simp at h
      | gerritAPIException code => simp at h
      | indexError => simp at h
      | keyError => simp at h
      | typeError => simp at h
      | attributeError => simp at h

/-- Claim C2: for every get(account) call whose underlying HTTP GET fails,
get raises ReviewerNotFoundError with a message identifying the requested
account if and only if the HTTP status is 404 or 400; for any other
failure status it raises GerritAPIException carrying the original HTTP
status as cause; the failure is never swallowed. -/
theorem get_error_classification {σ : Type} {c : GerritChangeReviewers} {a : Json}
    {g : GerritClient σ} {s s2 : σ} {code : Nat}
    (h : g.step s ⟨Method.GET, c.endpoint ++ "/" ++ pyStr a, none⟩ = (.err code, s2)) :
    ((∃ msg, (c.get a g s).1 = .error (.reviewerNotFoundError msg)) ↔ (code = 404 ∨ code = 400))
    ∧ ((code = 404 ∨ code = 400) →
        (c.get a g s).1
          = .error (.reviewerNotFoundError ("Reviewer " ++ pyStr a ++ " does not exist")))
    ∧ (¬(code = 404 ∨ code = 400) → (c.get a g s).1 = .error (.gerritAPIException code)) := by
  rw [revGet_err h]
  by_cases hc : code = 404 ∨ code = 400 <;> simp [hc]

/-- Witness for C2: a server answering 404 concretely. -/
theorem get_error_classification_witness :
    (constServer (.err 404)).step ()
        ⟨Method.GET, (GerritChangeReviewers.mk "c1").endpoint ++ "/" ++ pyStr (.str "bob"), none⟩
      = (.err 404, ())
    ∧ (((∃ msg, ((GerritChangeReviewers.mk "c1").get (.str "bob") (constServer (.err 404)) ()).1
          = .error (.reviewerNotFoundError msg)) ↔ ((404 : Nat) = 404 ∨ (404 : Nat) = 400))
      ∧ (((404 : Nat) = 404 ∨ (404 : Nat) = 400) →
          ((GerritChangeReviewers.mk "c1").get (.str "bob") (constServer (.err 404)) ()).1
            = .error (.reviewerNotFoundError
                ("Reviewer " ++ pyStr (.str "bob") ++ " does not exist")))
      ∧ (¬((404 : Nat) = 404 ∨ (404 : Nat) = 400) →
          ((GerritChangeReviewers.mk "c1").get (.str "bob") (constServer (.err 404)) ()).1
            = .error (.gerritAPIException 404))) :=
  ⟨rfl, get_error_classification rfl⟩

/-- Claim C4: a get(account) whose HTTP lookup succeeds returns a reviewer
entity whose account attribute equals the _account_id field of the first
record of the response and whose change attribute equals the collection
change identifier. -/
theorem get_success_builds_entity_from_first_record {σ : Type} {c : GerritChangeReviewers}
    {a : Json} {g : GerritClient σ} {s s2 : σ} {fs : List (String × Json)} {rest : List Json}
    (h : g.step s ⟨Method.GET, c.endpoint ++ "/" ++ pyStr a, none⟩
          = (.ok (.arr (Json.obj fs :: rest)), s2)) :
    ∃ r, c.get a g s = (.ok r, s2, [⟨Method.GET, c.endpoint ++ "/" ++ pyStr a, none⟩])
      ∧ r.account = (lookupField fs "_account_id").getD .null
      ∧ r.change = c.change := by
  refine ⟨GerritChangeReviewer.init ((lookupField fs "_account_id").getD .null) c.change,
    ?_, rfl, rfl⟩
  rw [revGet_ok h]
  simp [index0, dictGet]

/-- Witness for C4: a server answering with one record carrying
_account_id 7. -/
theorem get_success_builds_entity_from_first_record_witness :
    (constServer (.ok (.arr [.obj [("_account_id", .num 7)]]))).step ()
        ⟨Method.GET, (GerritChangeReviewers.mk "c1").endpoint ++ "/" ++ pyStr (.str "bob"), none⟩
      = (.ok (.arr (Json.obj [("_account_id", Json.num 7)] :: [])), ())
    ∧ ∃ r, (GerritChangeReviewers.mk "c1").get (.str "bob")
            (constServer (.ok (.arr [.obj [("_account_id", .num 7)]]))) ()
          = (.ok r, (),
             [⟨Method.GET,
               (GerritChangeReviewers.mk "c1").endpoint ++ "/" ++ pyStr (.str "bob"), none⟩])
        ∧ r.account = (lookupField [("_account_id", Json.num 7)] "_account_id").getD .null
        ∧ r.change = (GerritChangeReviewers.mk "c1").change :=
  ⟨rfl, get_success_builds_entity_from_first_record rfl⟩

/-- Claim C9: a get(account) whose HTTP lookup succeeds with an empty list
raises IndexError from indexing the first record, which is neither
ReviewerNotFoundError nor GerritAPIException; the not-found
classification applies only to HTTP-level 404/400 failures. -/
theorem get_empty_body_index_error {σ : Type} {c : GerritChangeReviewers} {a : Json}
    {g : GerritClient σ} {s s2 : σ}
    (h : g.step s ⟨Method.GET, c.endpoint ++ "/" ++ pyStr a, none⟩ = (.ok (.arr []), s2)) :
    (c.get a g s).1 = .error .indexError
    ∧ (∀ msg, (c.get a g s).1 ≠ .error (.reviewerNotFoundError msg))
    ∧ (∀ cause, (c.get a g s).1 ≠ .error (.gerritAPIException cause)) := by
  rw [revGet_ok h]
  simp [index0]

/-- Witness for C9: a server answering every lookup with an empty list. -/
theorem get_empty_body_index_error_witness :
    (constServer (.ok (.arr []))).step ()
        ⟨Method.GET, (GerritChangeReviewers.mk "c1").endpoint ++ "/" ++ pyStr (.str "bob"), none⟩
      = (.ok (.arr []), ())
    ∧ (((GerritChangeReviewers.mk "c1").get (.str "bob") (constServer (.ok (.arr []))) ()).1
          = .error .indexError
      ∧ (∀ msg, ((GerritChangeReviewers.mk "c1").get (.str "bob")
            (constServer (.ok (.arr []))) ()).1 ≠ .error (.reviewerNotFoundError msg))
      ∧ (∀ cause, ((GerritChangeReviewers.mk "c1").get (.str "bob")
            (constServer (.ok (.arr []))) ()).1 ≠ .error (.gerritAPIException cause))) :=
  ⟨rfl, get_empty_body_index_error rfl⟩

/-- Claim C6: reviewer-entity removal operations choose the wire call by
payload presence alone: delete with no input issues exactly one DELETE to
the endpoint, delete with a payload exactly one POST to endpoint/delete
carrying it; delete_vote with no input exactly one DELETE to
endpoint/votes/{label}, delete_vote with a payload exactly one POST to
endpoint/votes/{label}/delete carrying it. -/
theorem delete_ops_wire_calls {σ : Type} (r : GerritChangeReviewer) (j : Json)
    (label : String) (g : GerritClient σ) (s : σ) :
    (r.delete none g s).2.2.1 = [⟨Method.DELETE, r.endpoint, none⟩]
    ∧ (r.delete (some j) g s).2.2.1 = [⟨Method.POST, r.endpoint ++ "/delete", some j⟩]
    ∧ (r.delete_vote label none g s).2.2.1
        = [⟨Method.DELETE, r.endpoint ++ "/votes/" ++ label, none⟩]
    ∧ (r.delete_vote label (some j) g s).2.2.1
        = [⟨Method.POST, r.endpoint ++ "/votes/" ++ label ++ "/delete", some j⟩] := by
  refine ⟨?_, ?_, ?_, ?_⟩
  · have hcl := clientDelete_trace g s r.endpoint
    rcases hd : GerritClient.delete g s r.endpoint with ⟨res, s2, t⟩
    rw [hd] at hcl
    simp only [GerritChangeReviewer.delete, hd]
    simpa using hcl
  · have hcl := clientPost_trace g s (r.endpoint ++ "/delete") j
    rcases hd : GerritClient.post g s (r.endpoint ++ "/delete") j with ⟨res, s2, t⟩
    rw [hd] at hcl
    simp only [GerritChangeReviewer.delete, hd]
    simpa using hcl
  · have hcl := clientDelete_trace g s (r.endpoint ++ "/votes/" ++ label)
    rcases hd : GerritClient.delete g s (r.endpoint ++ "/votes/" ++ label) with ⟨res, s2, t⟩
    rw [hd] at hcl
    simp only [GerritChangeReviewer.delete_vote, hd]
    simpa using hcl
  · have hcl := clientPost_trace g s (r.endpoint ++ "/votes/" ++ label ++ "/delete") j
    rcases hd : GerritClient.post g s (r.endpoint ++ "/votes/" ++ label ++ "/delete") j
      with ⟨res, s2, t⟩
    rw [hd] at hcl
    simp only [GerritChangeReviewer.delete_vote, hd]
    simpa using hcl

/-- The entity delete issues exactly one request and returns the entity
unchanged; the request is the DELETE or the payload POST by input. -/
theorem revDelete_split {σ : Type} (r : GerritChangeReviewer) (input_ : Option Json)
    (g : GerritClient σ) (s : σ) :
    (r.delete input_ g s).2.2.2 = r
    ∧ (r.delete input_ g s).2.2.1
        = [match input_ with
           | none => ⟨Method.DELETE, r.endpoint, none⟩
           | some j => ⟨Method.POST, r.endpoint ++ "/delete", some j⟩] := by
  cases input_ with
  | none =>
    have hcl := clientDelete_trace g s r.endpoint
    rcases hd : GerritClient.delete g s r.endpoint with ⟨res, s2, t⟩
    rw [hd] at hcl
    simp only [GerritChangeReviewer.delete, hd]
    simpa using hcl
  | some j =>
    have hcl := clientPost_trace g s (r.endpoint ++ "/delete") j
    rcases hd : GerritClient.post g s (r.endpoint ++ "/delete") j with ⟨res, s2, t⟩
    rw [hd] at hcl
    simp only [GerritChangeReviewer.delete, hd]
    simpa using hcl

/-- The entity list_votes issues exactly one GET to endpoint/votes/ and
returns the entity unchanged. -/
theorem revListVotes_split {σ : Type} (r : GerritChangeReviewer)
    (g : GerritClient σ) (s : σ) :
    (r.list_votes g s).2.2.2 = r
    ∧ (r.list_votes g s).2.2.1 = [⟨Method.GET, r.endpoint ++ "/votes/", none⟩] := by
  have hcl := clientGet_trace g s (r.endpoint ++ "/votes/")
  rcases hd : GerritClient.get g s (r.endpoint ++ "/votes/") with ⟨res, s2, t⟩
  rw [hd] at hcl
  simp only [GerritChangeReviewer.list_votes, hd]
  simpa using hcl

/-- The entity delete_vote issues exactly one request and returns the
entity unchanged; the request is the label-scoped DELETE or POST. -/
theorem revDeleteVote_split {σ : Type} (r : GerritChangeReviewer) (label : String)
    (input_ : Option Json) (g : GerritClient σ) (s : σ) :
    (r.delete_vote label input_ g s).2.2.2 = r
    ∧ (r.delete_vote label input_ g s).2.2.1
        = [match input_ with
           | none => ⟨Method.DELETE, r.endpoint ++ "/votes/" ++ label, none⟩
           | some j => ⟨Method.POST, r.endpoint ++ "/votes/" ++ label ++ "/delete", some j⟩] := by
  cases input_ with
  | none =>
    have hcl := clientDelete_trace g s (r.endpoint ++ "/votes/" ++ label)
    rcases hd : GerritClient.delete g s (r.endpoint ++ "/votes/" ++ label) with ⟨res, s2, t⟩
    rw [hd] at hcl
    simp only [GerritChangeReviewer.delete_vote, hd]
    simpa using hcl
  | some j =>
    have hcl := clientPost_trace g s (r.endpoint ++ "/votes/" ++ label ++ "/delete") j
    rcases hd : GerritClient.post g s (r.endpoint ++ "/votes/" ++ label ++ "/delete") j
      with ⟨res, s2, t⟩
    rw [hd] at hcl
    simp only [GerritChangeReviewer.delete_vote, hd]
    simpa using hcl

/-- Claim C10: a reviewer entity identity is fixed at construction and
preserved by every operation: delete, list_votes and delete_vote return
the entity with account, change and endpoint unchanged, the constructed
endpoint is /changes/{change}/reviewers/{account}, and every request any
of them issues targets a path that extends that endpoint. -/
theorem reviewer_ops_preserve_identity_and_scope {σ : Type} (a : Json) (ch label : String)
    (input_ : Option Json) (g : GerritClient σ) (s : σ) :
    (GerritChangeReviewer.init a ch).endpoint
        = "/changes/" ++ ch ++ "/reviewers/" ++ pyStr a
    ∧ ((GerritChangeReviewer.init a ch).delete input_ g s).2.2.2
        = GerritChangeReviewer.init a ch
    ∧ ((GerritChangeReviewer.init a ch).list_votes g s).2.2.2
        = GerritChangeReviewer.init a ch
    ∧ ((GerritChangeReviewer.init a ch).delete_vote label input_ g s).2.2.2
        = GerritChangeReviewer.init a ch
    ∧ (∀ req ∈ ((GerritChangeReviewer.init a ch).delete input_ g s).2.2.1,
        ∃ rest, req.path = (GerritChangeReviewer.init a ch).endpoint ++ rest)
    ∧ (∀ req ∈ ((GerritChangeReviewer.init a ch).list_votes g s).2.2.1,
        ∃ rest, req.path = (GerritChangeReviewer.init a ch).endpoint ++ rest)
    ∧ (∀ req ∈ ((GerritChangeReviewer.init a ch).delete_vote label input_ g s).2.2.1,
        ∃ rest, req.path = (GerritChangeReviewer.init a ch).endpoint ++ rest) := by
  refine ⟨rfl, (revDelete_split _ input_ g s).1, (revListVotes_split _ g s).1,
    (revDeleteVote_split _ label input_ g s).1, ?_, ?_, ?_⟩
  · intro req hreq
    rw [(revDelete_split _ input_ g s).2] at hreq
    cases input_ with
    | none =>
      simp only [List.mem_singleton] at hreq
      subst hreq
      exact ⟨"", (String.append_empty _).symm⟩
    | some j =>
      simp only [List.mem_singleton] at hreq
      subst hreq
      exact ⟨"/delete", rfl⟩
  · intro req hreq
    rw [(revListVotes_split _ g s).2] at hreq
    simp only [List.mem_singleton] at hreq
    subst hreq
    exact ⟨"/votes/", rfl⟩
  · intro req hreq
    rw [(revDeleteVote_split _ label input_ g s).2] at hreq
    cases input_ with
    | none =>
      simp only [List.mem_singleton] at hreq
      subst hreq
      exact ⟨"/votes/" ++ label, (String.append_assoc _ _ _)⟩
    | some j =>
      simp only [List.mem_singleton] at hreq
      subst hreq
      refine ⟨"/votes/" ++ label ++ "/delete", ?_⟩
      rw [← String.append_assoc, ← String.append_assoc]

/-- Witness for C10: for the concrete entity (5, "c1") the DELETE issued
by delete() is in the trace and targets a path extending the endpoint. -/
theorem reviewer_ops_preserve_identity_and_scope_witness :
    (⟨Method.DELETE, (GerritChangeReviewer.init (Json.num 5) "c1").endpoint, none⟩ : Request)
        ∈ ((GerritChangeReviewer.init (Json.num 5) "c1").delete none
            (constServer (.err 500)) ()).2.2.1
    ∧ ∃ rest,
        (⟨Method.DELETE, (GerritChangeReviewer.init (Json.num 5) "c1").endpoint, none⟩
          : Request).path
          = (GerritChangeReviewer.init (Json.num 5) "c1").endpoint ++ rest :=
  ⟨List.mem_singleton_self _,
   (reviewer_ops_preserve_identity_and_scope (Json.num 5) "c1" "Code-Review" none
      (constServer (.err 500)) ()).2.2.2.2.1 _ (List.mem_singleton_self _)⟩

/-- Claim C3: when add(input_) finds its reviewer X already resolvable
(the initial get succeeds), it raises ReviewerAlreadyExistsError, and the
whole call issued no mutating HTTP request: every request of its trace is
a GET, so server-side reviewer state is untouched by this call. -/
theorem add_existing_raises_without_mutation {σ : Type} {c : GerritChangeReviewers}
    {input_ X : Json} {g : GerritClient σ} {s s1 : σ} {r : GerritChangeReviewer}
    {t1 : List Request}
    (h0 : dictGet input_ "reviewer" = .ok X)
    (h1 : c.get X g s = (.ok r, s1, t1)) :
    c.add input_ g s
      = (.error (.reviewerAlreadyExistsError ("Reviewer " ++ pyStr X ++ " already exists")),
         s1, t1)
    ∧ ∀ req ∈ (c.add input_ g s).2.2, req.method = Method.GET := by
  have ht1 : t1 = [⟨Method.GET, c.endpoint ++ "/" ++ pyStr X, none⟩] := by
    have hrt := revGet_trace c X g s
    rw [h1] at hrt
    simpa using hrt
  have hmain : c.add input_ g s
      = (.error (.reviewerAlreadyExistsError ("Reviewer " ++ pyStr X ++ " already exists")),
         s1, t1) := by
    simp only [GerritChangeReviewers.add, h0, h1]
  refine ⟨hmain, ?_⟩
  rw [hmain]
  intro req hreq
  rw [ht1] at hreq
  simp only [List.mem_singleton] at hreq
  subst hreq
  rfl

/-- Witness for C3: a server on which the lookup finds the reviewer. -/
theorem add_existing_raises_without_mutation_witness :
    dictGet (Json.obj [("reviewer", Json.str "bob")]) "reviewer" = .ok (Json.str "bob")
    ∧ (GerritChangeReviewers.mk "c1").get (Json.str "bob")
        (constServer (.ok (.arr [.obj [("_account_id", .num 7)]]))) ()
      = (.ok (GerritChangeReviewer.init (Json.num 7) "c1"), (),
         [⟨Method.GET,
           (GerritChangeReviewers.mk "c1").endpoint ++ "/" ++ pyStr (Json.str "bob"), none⟩])
    ∧ ((GerritChangeReviewers.mk "c1").add (Json.obj [("reviewer", Json.str "bob")])
          (constServer (.ok (.arr [.obj [("_account_id", .num 7)]]))) ()
        = (.error (.reviewerAlreadyExistsError
            ("Reviewer " ++ pyStr (Json.str "bob") ++ " already exists")), (),
           [⟨Method.GET,
             (GerritChangeReviewers.mk "c1").endpoint ++ "/" ++ pyStr (Json.str "bob"), none⟩])
      ∧ ∀ req ∈ ((GerritChangeReviewers.mk "c1").add (Json.obj [("reviewer", Json.str "bob")])
          (constServer (.ok (.arr [.obj [("_account_id", .num 7)]]))) ()).2.2,
          req.method = Method.GET) :=
  ⟨rfl, rfl, add_existing_raises_without_mutation rfl rfl⟩

/-- Claim C1: when add(input_) finds its reviewer X absent (the initial
get raises ReviewerNotFoundError) and the server accepts the POST, the
call issues exactly one POST of the given input to the add endpoint
followed by exactly one further GET re-resolving X (the full trace is the
failed lookup GET, that POST, then that GET, and nothing else), and the
returned value and final state are exactly those of the second get, with
no dependence on the POST response body. -/
theorem add_absent_posts_then_reresolves {σ : Type} {c : GerritChangeReviewers}
    {input_ X : Json} {g : GerritClient σ} {s s1 s2 : σ} {m : String}
    {t1 tp : List Request} {body : Json}
    (h0 : dictGet input_ "reviewer" = .ok X)
    (h1 : c.get X g s = (.error (.reviewerNotFoundError m), s1, t1))
    (h2 : GerritClient.post g s1 c.endpoint input_ = (.ok body, s2, tp)) :
    c.add input_ g s =
      ((c.get X g s2).1, (c.get X g s2).2.1,
       [⟨Method.GET, c.endpoint ++ "/" ++ pyStr X, none⟩,
        ⟨Method.POST, c.endpoint, some input_⟩,
        ⟨Method.GET, c.endpoint ++ "/" ++ pyStr X, none⟩]) := by
  have ht1 : t1 = [⟨Method.GET, c.endpoint ++ "/" ++ pyStr X, none⟩] := by
    have hrt := revGet_trace c X g s
    rw [h1] at hrt
    simpa using hrt
  have htp : tp = [⟨Method.POST, c.endpoint, some input_⟩] := by
    have hpt := clientPost_trace g s1 c.endpoint input_
    rw [h2] at hpt
    simpa using hpt
  have ht3 : (c.get X g s2).2.2 = [⟨Method.GET, c.endpoint ++ "/" ++ pyStr X, none⟩] :=
    revGet_trace c X g s2
  simp only [GerritChangeReviewers.add, h0, h1]
  rw [h2]
  dsimp only
  rw [ht1, htp, ht3]
  rfl

/-- Witness for C1: a server that 404s the first lookup and accepts
everything afterwards. -/
theorem add_absent_posts_then_reresolves_witness :
    dictGet (Json.obj [("reviewer", Json.str "john.doe")]) "reviewer"
        = .ok (Json.str "john.doe")
    ∧ (GerritChangeReviewers.mk "c1").get (Json.str "john.doe") addFlowServer 0
      = (.error (.reviewerNotFoundError
          ("Reviewer " ++ pyStr (Json.str "john.doe") ++ " does not exist")), 1,
         [⟨Method.GET,
           (GerritChangeReviewers.mk "c1").endpoint ++ "/" ++ pyStr (Json.str "john.doe"),
           none⟩])
    ∧ GerritClient.post addFlowServer 1 (GerritChangeReviewers.mk "c1").endpoint
        (Json.obj [("reviewer", Json.str "john.doe")])
      = (.ok (.arr [.obj [("_account_id", .num 42)]]), 2,
         [⟨Method.POST, (GerritChangeReviewers.mk "c1").endpoint,
           some (Json.obj [("reviewer", Json.str "john.doe")])⟩])
    ∧ (GerritChangeReviewers.mk "c1").add (Json.obj [("reviewer", Json.str "john.doe")])
        addFlowServer 0
      = (((GerritChangeReviewers.mk "c1").get (Json.str "john.doe") addFlowServer 2).1,
         ((GerritChangeReviewers.mk "c1").get (Json.str "john.doe") addFlowServer 2).2.1,
         [⟨Method.GET,
           (GerritChangeReviewers.mk "c1").endpoint ++ "/" ++ pyStr (Json.str "john.doe"),
           none⟩,
          ⟨Method.POST, (GerritChangeReviewers.mk "c1").endpoint,
           some (Json.obj [("reviewer", Json.str "john.doe")])⟩,
          ⟨Method.GET,
           (GerritChangeReviewers.mk "c1").endpoint ++ "/" ++ pyStr (Json.str "john.doe"),
           none⟩]) :=
  ⟨rfl, rfl, rfl, add_absent_posts_then_reresolves rfl rfl rfl⟩

/-- Claim C5: every reviewer entity that get or add returns was
constructed from a successful server lookup of that reviewer on that
change within the same call: the server answered the account-scoped
lookup GET with a 2xx body whose first record supplied the entity
account id, the entity is bound to the collection change, that response
leads directly to the state in which the call returns, and the
confirming GET is the last request of the call trace. -/
theorem returned_entity_server_confirmed {σ : Type} {c : GerritChangeReviewers}
    {op : ReviewerOp} {g : GerritClient σ} {s sf : σ} {r : GerritChangeReviewer}
    {t : List Request}
    (h : c.runOp op g s = (.ok r, sf, t)) :
    ∃ a s0 body first accountId,
      g.step s0 ⟨Method.GET, c.endpoint ++ "/" ++ pyStr a, none⟩ = (.ok body, sf)
      ∧ index0 body = .ok first
      ∧ dictGet first "_account_id" = .ok accountId
      ∧ r = GerritChangeReviewer.init accountId c.change
      ∧ t.getLast? = some ⟨Method.GET, c.endpoint ++ "/" ++ pyStr a, none⟩ := by
  cases op with
  | getOp a =>
    simp only [GerritChangeReviewers.runOp] at h
    obtain ⟨body, first, accountId, hstep, hidx, hag, hr, ht⟩ := revGet_ok_inv h
    exact ⟨a, s, body, first, accountId, hstep, hidx, hag, hr, by rw [ht]; rfl⟩
  | addOp i =>
    simp only [GerritChangeReviewers.runOp] at h
    obtain ⟨X, s2, t3, hdg, hget, hlast⟩ := revAdd_ok_inv h
    obtain ⟨body, first, accountId, hstep, hidx, hag, hr, ht3⟩ := revGet_ok_inv hget
    exact ⟨X, s2, body, first, accountId, hstep, hidx, hag, hr, by rw [hlast, ht3]; rfl⟩

/-- Witness for C5: a concrete confirmed get run through runOp. -/
theorem returned_entity_server_confirmed_witness :
    (GerritChangeReviewers.mk "c1").runOp (.getOp (Json.str "bob"))
        (constServer (.ok (.arr [.obj [("_account_id", .num 7)]]))) ()
      = (.ok (GerritChangeReviewer.init (Json.num 7) "c1"), (),
         [⟨Method.GET,
           (GerritChangeReviewers.mk "c1").endpoint ++ "/" ++ pyStr (Json.str "bob"), none⟩])
    ∧ ∃ a s0 body first accountId,
        (constServer (.ok (.arr [.obj [("_account_id", .num 7)]]))).step s0
            ⟨Method.GET, (GerritChangeReviewers.mk "c1").endpoint ++ "/" ++ pyStr a, none⟩
          = (.ok body, ())
        ∧ index0 body = .ok first
        ∧ dictGet first "_account_id" = .ok accountId
        ∧ GerritChangeReviewer.init (Json.num 7) "c1"
            = GerritChangeReviewer.init accountId (GerritChangeReviewers.mk "c1").change
        ∧ ([⟨Method.GET,
             (GerritChangeReviewers.mk "c1").endpoint ++ "/" ++ pyStr (Json.str "bob"),
             none⟩] : List Request).getLast?
            = some ⟨Method.GET, (GerritChangeReviewers.mk "c1").endpoint ++ "/" ++ pyStr a,
                    none⟩ :=
  ⟨rfl,
   @returned_entity_server_confirmed Unit (GerritChangeReviewers.mk "c1")
     (.getOp (Json.str "bob")) (constServer (.ok (.arr [.obj [("_account_id", .num 7)]])))
     () () (GerritChangeReviewer.init (Json.num 7) "c1")
     [⟨Method.GET, (GerritChangeReviewers.mk "c1").endpoint ++ "/" ++ pyStr (Json.str "bob"),
       none⟩]
     rfl⟩

/-- Counterexample to claim C7 as stated: the claim says an add whose
input lacks the reviewer field rejects the request rather than issuing
HTTP calls; in the code input_.get("reviewer") yields None, no validation
happens, and the call proceeds to issue the lookup GET with the literal
identifier None interpolated into the path (here the server answers 500,
so the call ends in GerritAPIException from that HTTP call, not in any
local rejection). -/
theorem add_missing_reviewer_field_issues_http :
    (GerritChangeReviewers.mk "c1").add (Json.obj []) (constServer (.err 500)) ()
      = (.error (.gerritAPIException 500), (),
         [⟨Method.GET,
           (GerritChangeReviewers.mk "c1").endpoint ++ "/" ++ pyStr Json.null, none⟩])
    ∧ pyStr Json.null = "None" :=
  ⟨rfl, rfl⟩

/-- Claim C7 amended: add performs no validation of its input shape at
all, the reviewer field included: for every dict input lacking that
field, the extracted identifier is Python None and the call proceeds to
issue HTTP requests rather than rejecting locally; the first request of
its trace is the lookup GET for the literal identifier None. -/
theorem add_missing_reviewer_field_proceeds_with_none {σ : Type}
    {c : GerritChangeReviewers} {fs : List (String × Json)} {g : GerritClient σ} {s : σ}
    (h : lookupField fs "reviewer" = none) :
    (c.add (.obj fs) g s).2.2.head?
      = some ⟨Method.GET, c.endpoint ++ "/" ++ pyStr Json.null, none⟩ := by
  have h0 : dictGet (Json.obj fs) "reviewer" = .ok Json.null := by
    simp [dictGet, h]
  simp only [GerritChangeReviewers.add, h0]
  rcases hg1 : c.get Json.null g s with ⟨r1, s1, t1⟩
  have ht1 : t1 = [⟨Method.GET, c.endpoint ++ "/" ++ pyStr Json.null, none⟩] := by
    have hrt := revGet_trace c Json.null g s
    rw [hg1] at hrt
    simpa using hrt
  cases r1 with
  | ok r0 =>
    simp [ht1]
  | error e =>
    cases e with
    | reviewerNotFoundError m =>
      dsimp only
      rcases hp : GerritClient.post g s1 c.endpoint (Json.obj fs) with ⟨r2, s2, t2⟩
      cases r2 with
      | error e2 => simp [ht1]
      | ok b => simp [ht1]
    | httpError code => simp [ht1]
    | reviewerAlreadyExistsError m => simp [ht1]
    | gerritAPIException cause => simp [ht1]
    | indexError => simp [ht1]
    | keyError => simp [ht1]
    | typeError => simp [ht1]
    | attributeError => simp [ht1]

/-- Witness for the amended C7 at the empty input dict. -/
theorem add_missing_reviewer_field_proceeds_with_none_witness :
    lookupField ([] : List (String × Json)) "reviewer" = none
    ∧ ((GerritChangeReviewers.mk "c1").add (.obj []) (constServer (.err 500)) ()).2.2.head?
        = some ⟨Method.GET,
                (GerritChangeReviewers.mk "c1").endpoint ++ "/" ++ pyStr Json.null, none⟩ :=
  ⟨rfl, add_missing_reviewer_field_proceeds_with_none rfl⟩

/-- Claim C8: a successful set_name(input_) issues exactly one HTTP PUT to
/accounts/{username}/name, returns the decoded response body, sets the
model name attribute to that same value, and leaves username, email,
registered_on and _account_id unchanged. -/
theorem set_name_put_updates_only_name {σ : Type} {a : GerritAccount} {input_ result : Json}
    {g : GerritClient σ} {s s2 : σ}
    (h : g.step s ⟨Method.PUT, "/accounts/" ++ pyStr a.username ++ "/name", some input_⟩
          = (.ok result, s2)) :
    a.set_name input_ g s
      = (.ok result, s2,
         [⟨Method.PUT, "/accounts/" ++ pyStr a.username ++ "/name", some input_⟩],
         { a with name := result })
    ∧ (a.set_name input_ g s).2.2.2.name = result
    ∧ (a.set_name input_ g s).2.2.2.username = a.username
    ∧ (a.set_name input_ g s).2.2.2.email = a.email
    ∧ (a.set_name input_ g s).2.2.2.registered_on = a.registered_on
    ∧ (a.set_name input_ g s).2.2.2.accountId = a.accountId := by
  have hmain : a.set_name input_ g s
      = (.ok result, s2,
         [⟨Method.PUT, "/accounts/" ++ pyStr a.username ++ "/name", some input_⟩],
         { a with name := result }) := by
    simp only [GerritAccount.set_name, check, clientPut_ok h]
  exact ⟨hmain, by rw [hmain], by rw [hmain], by rw [hmain], by rw [hmain], by rw [hmain]⟩

/-- Witness for C8: a concrete account and a server accepting the PUT. -/
theorem set_name_put_updates_only_name_witness :
    (constServer (.ok (.str "New Name"))).step ()
        ⟨Method.PUT,
         "/accounts/"
           ++ pyStr (GerritAccount.mk (.str "u") .null (.num 1) .null (.str "e")).username
           ++ "/name",
         some (Json.obj [("name", Json.str "New Name")])⟩
      = (.ok (.str "New Name"), ())
    ∧ ((GerritAccount.mk (.str "u") .null (.num 1) .null (.str "e")).set_name
          (Json.obj [("name", Json.str "New Name")]) (constServer (.ok (.str "New Name"))) ()
        = (.ok (.str "New Name"), (),
           [⟨Method.PUT,
             "/accounts/"
               ++ pyStr (GerritAccount.mk (.str "u") .null (.num 1) .null (.str "e")).username
               ++ "/name",
             some (Json.obj [("name", Json.str "New Name")])⟩],
           { GerritAccount.mk (.str "u") .null (.num 1) .null (.str "e")
               with name := .str "New Name" })
      ∧ ((GerritAccount.mk (.str "u") .null (.num 1) .null (.str "e")).set_name
            (Json.obj [("name", Json.str "New Name")])
            (constServer (.ok (.str "New Name"))) ()).2.2.2.name = .str "New Name"
      ∧ ((GerritAccount.mk (.str "u") .null (.num 1) .null (.str "e")).set_name
            (Json.obj [("name", Json.str "New Name")])
            (constServer (.ok (.str "New Name"))) ()).2.2.2.username
          = (GerritAccount.mk (.str "u") .null (.num 1) .null (.str "e")).username
      ∧ ((GerritAccount.mk (.str "u") .null (.num 1) .null (.str "e")).set_name
            (Json.obj [("name", Json.str "New Name")])
            (constServer (.ok (.str "New Name"))) ()).2.2.2.email
          = (GerritAccount.mk (.str "u") .null (.num 1) .null (.str "e")).email
      ∧ ((GerritAccount.mk (.str "u") .null (.num 1) .null (.str "e")).set_name
            (Json.obj [("name", Json.str "New Name")])
            (constServer (.ok (.str "New Name"))) ()).2.2.2.registered_on
          = (GerritAccount.mk (.str "u") .null (.num 1) .null (.str "e")).registered_on
      ∧ ((GerritAccount.mk (.str "u") .null (.num 1) .null (.str "e")).set_name
            (Json.obj [("name", Json.str "New Name")])
            (constServer (.ok (.str "New Name"))) ()).2.2.2.accountId
          = (GerritAccount.mk (.str "u") .null (.num 1) .null (.str "e")).accountId) :=
  ⟨rfl, set_name_put_updates_only_name rfl⟩
